import Mathlib

/-!
# State-lattice node model of `nav2_smac_planner` (`node_lattice.cpp`)

A shallow embedding of `LatticeMotionTable` and `NodeLattice` and the
properties of their operations.

* Floating-point values are elements of a type `F`; every floating-point
  operation the source performs is an operation of `FloatArith F`, so the
  general theorems hold for whatever arithmetic the target implements.
  `exactArith` is one executable arithmetic (exact fractions with NaN and the
  infinities), used to evaluate the code on concrete inputs.
* `unsigned int` values are naturals reduced modulo `2 ^ 32` where the source
  can wrap.
* Pointers to nodes are `Option Nat` (`none` is `nullptr`), node memory is a
  map from addresses to nodes.
* The static members `NodeLattice::motion_table` and
  `NodeLattice::neutral_cost` are passed explicitly.
-/

namespace nav2_smac_planner

/-! ## Floating-point arithmetic -/

/-- Floating-point operations used by `node_lattice.cpp`. -/
structure FloatArith (F : Type) where
  /-- The literal `0.0` / `0.0f`. -/
  zero : F
  /-- The literal `2.0`. -/
  two : F
  /-- The literal `1.207`. -/
  c1207 : F
  /-- The value `std::numeric_limits<float>::quiet_NaN()`. -/
  quiet_NaN : F
  /-- The value `std::numeric_limits<float>::max()`. -/
  max_value : F
  /-- Conversion of an `unsigned int` to floating point. -/
  ofUInt : Nat → F
  /-- Conversion of an `int` to floating point. -/
  ofInt : Int → F
  /-- Conversion of a floating-point value to `int`. -/
  toInt : F → Int
  /-- Conversion `static_cast<unsigned int>` of a floating-point value. -/
  toUInt : F → Nat
  /-- Conversion of a floating-point value to a container index. -/
  toSize : F → Nat
  /-- Unary minus. -/
  neg : F → F
  /-- Addition. -/
  add : F → F → F
  /-- Subtraction. -/
  sub : F → F → F
  /-- Multiplication. -/
  mul : F → F → F
  /-- Division. -/
  div : F → F → F
  /-- Comparison `a < b`. -/
  lt : F → F → Bool
  /-- The function `round`. -/
  round : F → F
  /-- The function `floor`. -/
  floor : F → F
  /-- The function `ceil`. -/
  ceil : F → F
  /-- The function `abs`. -/
  abs : F → F

/-- The function `std::max(a, b)`: `(a < b) ? b : a`. -/
def stdMax {F : Type} (A : FloatArith F) (a b : F) : F :=
  if A.lt a b then b else a

/-- The modulus of `unsigned int` arithmetic. -/
def UINT_MOD : Nat := 2 ^ 32

/-- The `unsigned int` with the value of an integer expression. -/
def wrapUInt (i : Int) : Nat := (i % (UINT_MOD : Int)).toNat

/-- The `int` an `unsigned int` converts to. -/
def asInt (n : Nat) : Int :=
  if n < 2 ^ 31 then (n : Int) else (n : Int) - (UINT_MOD : Int)

/-! ## Data model -/

/-- The struct `Coordinates`: `x`, `y` and the heading bin `theta`, as floats. -/
structure Coordinates (F : Type) where
  x : F
  y : F
  theta : F
  deriving DecidableEq

/-- A projected pose of `MotionPoses`. -/
structure MotionPose (F : Type) where
  _x : F
  _y : F
  _theta : F
  deriving DecidableEq

/-- The part of `SearchInfo` the lattice node reads. -/
structure SearchInfo where
  lattice_filepath : String
  deriving DecidableEq

/-- The struct `LatticeMotionTable`. -/
structure LatticeMotionTable (F : Type) where
  size_x : Nat
  num_angle_quantization : Nat
  min_turning_radius : F
  bin_size : F
  trig_values : List (F × F)
  current_lattice_filepath : String
  deriving DecidableEq

/-- The data members of `NodeLattice`; `parent` is a non-owning pointer. -/
structure NodeLattice (F : Type) where
  parent : Option Nat
  pose : Coordinates F
  _cell_cost : F
  _accumulated_cost : F
  _index : Nat
  _was_visited : Bool
  _is_queued : Bool
  _motion_primitive_index : Nat
  deriving DecidableEq

/-- A collision checker with internal state `σ`: `inCollision` answers a query
at `(x, y, theta, traverse_unknown)` and `getCost` reports the cost of the last
queried pose; both may update the checker. -/
structure GridCollisionChecker (σ F : Type) where
  inCollision : σ → F → F → F → Bool → Bool × σ
  getCost : σ → F × σ

/-! ## `LatticeMotionTable` -/

/-- The function `LatticeMotionTable::initMotionModel`. -/
def LatticeMotionTable.initMotionModel {F : Type} (t : LatticeMotionTable F)
    (size_x_in : Nat) (search_info : SearchInfo) : LatticeMotionTable F :=
  let t1 := { t with size_x := size_x_in }
  if t1.current_lattice_filepath = search_info.lattice_filepath then
    t1
  else
    { t1 with current_lattice_filepath := search_info.lattice_filepath }

/-- The function `LatticeMotionTable::getProjections`. -/
def LatticeMotionTable.getProjections {F : Type} (_t : LatticeMotionTable F)
    (_node : NodeLattice F) : List (MotionPose F) :=
  []

/-! ## `NodeLattice` -/

/-- The constructor `NodeLattice::NodeLattice(index)`; the motion primitive
index has no initialiser in the source and is taken as given. -/
def NodeLattice.new {F : Type} (A : FloatArith F) (index : Nat)
    (motion_primitive_index : Nat) : NodeLattice F :=
  { parent := none
    pose := ⟨A.zero, A.zero, A.zero⟩
    _cell_cost := A.quiet_NaN
    _accumulated_cost := A.max_value
    _index := index
    _was_visited := false
    _is_queued := false
    _motion_primitive_index := motion_primitive_index }

/-- The function `NodeLattice::reset`. -/
def NodeLattice.reset {F : Type} (A : FloatArith F) (n : NodeLattice F) : NodeLattice F :=
  { n with
    parent := none
    _cell_cost := A.quiet_NaN
    _accumulated_cost := A.max_value
    _was_visited := false
    _is_queued := false
    pose := ⟨A.zero, A.zero, A.zero⟩ }

/-- The function `NodeLattice::setPose`. -/
def NodeLattice.setPose {F : Type} (n : NodeLattice F) (pose_in : Coordinates F) :
    NodeLattice F :=
  { n with pose := pose_in }

/-- The function `NodeLattice::setMotionPrimitiveIndex`. -/
def NodeLattice.setMotionPrimitiveIndex {F : Type} (n : NodeLattice F) (idx : Nat) :
    NodeLattice F :=
  { n with _motion_primitive_index := idx }

/-- The function `NodeLattice::isNodeValid`: the returned value, the node and
the collision checker afterwards. -/
def NodeLattice.isNodeValid {σ F : Type} (A : FloatArith F)
    (collision_checker : GridCollisionChecker σ F) (motion_table : LatticeMotionTable F)
    (traverse_unknown : Bool) (n : NodeLattice F) (c : σ) : Bool × NodeLattice F × σ :=
  let q := collision_checker.inCollision c n.pose.x n.pose.y
    (A.mul n.pose.theta motion_table.bin_size) traverse_unknown
  if q.1 then
    (false, n, q.2)
  else
    let g := collision_checker.getCost q.2
    (true, { n with _cell_cost := g.1 }, g.2)

/-- The function `NodeLattice::getTraversalCost`. -/
def NodeLattice.getTraversalCost {F : Type} (A : FloatArith F) (_n _child : NodeLattice F) : F :=
  A.zero

/-- The function `NodeLattice::initMotionModel` over the shared motion table:
the outcome (an error when it throws) and the table afterwards. -/
def NodeLattice.initMotionModel {M F : Type} [DecidableEq M] (STATE_LATTICE : M)
    (motion_model : M) (size_x _size_y _num_angle_quantization : Nat)
    (search_info : SearchInfo) (motion_table : LatticeMotionTable F) :
    Except String Unit × LatticeMotionTable F :=
  if motion_model ≠ STATE_LATTICE then
    (.error ("Invalid motion model for Lattice node. Please select" ++
      " STATE_LATTICE and provide a valid lattice file."), motion_table)
  else
    (.ok (), motion_table.initMotionModel size_x search_info)

/-! ## `NodeLattice::getHeuristicCost`

The tables `NodeHybrid::dist_heuristic_lookup` and
`NodeHybrid::wavefront_heuristic_lookup_table` and the window size
`NodeHybrid::size_lookup` are static members of another class and are passed
in. A read outside a table has no defined result and yields `none`. -/

/-- The heading difference `dtheta_bin` after the wrap of lines 145-150. -/
def wrapThetaBin {F : Type} (A : FloatArith F) (motion_table : LatticeMotionTable F)
    (node_coords goal_coords : Coordinates F) : F :=
  let dtheta_bin := A.sub node_coords.theta goal_coords.theta
  if A.lt (A.ofUInt motion_table.num_angle_quantization) dtheta_bin then
    A.sub dtheta_bin (A.ofUInt motion_table.num_angle_quantization)
  else if A.lt dtheta_bin A.zero then
    A.add dtheta_bin (A.ofUInt motion_table.num_angle_quantization)
  else
    dtheta_bin

/-- The local `node_coords_relative` (lines 139-155): the node translated and
de-rotated into the frame of the goal, each component rounded. -/
def relativeCoords {F : Type} (A : FloatArith F) (motion_table : LatticeMotionTable F)
    (node_coords goal_coords : Coordinates F) : Option (Coordinates F) :=
  match motion_table.trig_values[A.toSize goal_coords.theta]? with
  | none => none
  | some trig_vals =>
    let cos_th := trig_vals.1
    let sin_th := A.neg trig_vals.2
    let dx := A.sub node_coords.x goal_coords.x
    let dy := A.sub node_coords.y goal_coords.y
    some
      { x := A.round (A.sub (A.mul dx cos_th) (A.mul dy sin_th))
        y := A.round (A.add (A.mul dx sin_th) (A.mul dy cos_th))
        theta := A.round (wrapThetaBin A motion_table node_coords goal_coords) }

/-- The local `floored_size`. -/
def flooredSize {F : Type} (A : FloatArith F) (size_lookup : F) : Int :=
  A.toInt (A.floor (A.div size_lookup A.two))

/-- The local `ceiling_size`. -/
def ceilingSize {F : Type} (A : FloatArith F) (size_lookup : F) : Int :=
  A.toInt (A.ceil (A.div size_lookup A.two))

/-- The window test of line 164. -/
def inWindow {F : Type} (A : FloatArith F) (size_lookup : F) (rel : Coordinates F) : Bool :=
  A.lt (A.abs rel.x) (A.ofInt (flooredSize A size_lookup)) &&
    A.lt (A.abs rel.y) (A.ofInt (flooredSize A size_lookup))

/-- The local `theta_pos` (lines 166-171). -/
def thetaPos {F : Type} (A : FloatArith F) (motion_table : LatticeMotionTable F)
    (rel : Coordinates F) : Int :=
  if A.lt rel.y A.zero then
    A.toInt (A.sub (A.ofUInt motion_table.num_angle_quantization) rel.theta)
  else
    A.toInt rel.theta

/-- The local `index` (lines 172-177); the sum is formed in `unsigned int` and
stored in an `int`. -/
def lookupIndex {F : Type} (A : FloatArith F) (motion_table : LatticeMotionTable F)
    (size_lookup : F) (rel : Coordinates F) : Int :=
  let theta_pos := thetaPos A motion_table rel
  let x_pos := A.toInt (A.add rel.x (A.ofInt (flooredSize A size_lookup)))
  let y_pos := A.toInt (A.abs rel.y)
  asInt (wrapUInt
    (x_pos * ceilingSize A size_lookup * (motion_table.num_angle_quantization : Int) +
      y_pos * (motion_table.num_angle_quantization : Int) +
      theta_pos))

/-- A read `table[index]` with an `int` index. -/
def readAt {α : Type} (table : List α) (index : Int) : Option α :=
  if index < 0 then none else table[index.toNat]?

/-- The local `motion_heuristic` (lines 160-179) for given relative coordinates. -/
def motionHeuristic {F : Type} (A : FloatArith F) (motion_table : LatticeMotionTable F)
    (size_lookup : F) (dist_heuristic_lookup : List F) (rel : Coordinates F) : Option F :=
  if inWindow A size_lookup rel then
    readAt dist_heuristic_lookup (lookupIndex A motion_table size_lookup rel)
  else
    some A.zero

/-- The local `wavefront_idx` (lines 181-182). -/
def wavefrontIdx {F : Type} (A : FloatArith F) (motion_table : LatticeMotionTable F)
    (node_coords : Coordinates F) : Nat :=
  (A.toUInt node_coords.y * motion_table.size_x + A.toUInt node_coords.x) % UINT_MOD

/-- The `unsigned int` expression `wavefront_value - 2`. -/
def wavefrontOffset (wavefront_value : Nat) : Nat :=
  (wavefront_value + UINT_MOD - 2) % UINT_MOD

/-- The local `wavefront_heuristic` (line 187) for a table value. -/
def wavefrontHeuristic {F : Type} (A : FloatArith F) (wavefront_value : Nat) : F :=
  A.mul (A.ofUInt (wavefrontOffset wavefront_value)) A.c1207

/-- The function `NodeLattice::getHeuristicCost`. -/
def NodeLattice.getHeuristicCost {F : Type} (A : FloatArith F)
    (motion_table : LatticeMotionTable F) (neutral_cost size_lookup : F)
    (dist_heuristic_lookup : List F) (wavefront_heuristic_lookup_table : List Nat)
    (node_coords goal_coords : Coordinates F) : Option F :=
  match relativeCoords A motion_table node_coords goal_coords with
  | none => none
  | some node_coords_relative =>
    match motionHeuristic A motion_table size_lookup dist_heuristic_lookup
        node_coords_relative with
    | none => none
    | some motion_heuristic =>
      match wavefront_heuristic_lookup_table[wavefrontIdx A motion_table node_coords]? with
      | none => none
      | some wavefront_value =>
        some (A.mul neutral_cost
          (stdMax A (wavefrontHeuristic A wavefront_value) motion_heuristic))

/-! ## `NodeLattice::getNeighbors` -/

/-- Node memory: the node stored at each address, if any. -/
abbrev NodeMemory (F : Type) := Nat → Option (NodeLattice F)

/-- The callback `NeighborGetter` with internal state `γ`: from its state, the
node memory, the requested index and the current value of the pointer
argument to the returned flag, the pointer argument afterwards, its new state
and the node memory afterwards. -/
abbrev NeighborGetter (γ F : Type) :=
  γ → NodeMemory F → Nat → Option Nat → Bool × Option Nat × γ × NodeMemory F

/-- Everything `getNeighbors` reads and writes: node memory, the state of the
callback and of the collision checker, the local pointer `neighbor` and the
output vector `neighbors`. -/
structure Expansion (γ σ F : Type) where
  memory : NodeMemory F
  getter : γ
  checker : σ
  neighbor : Option Nat
  neighbors : List Nat

/-- Node memory with the node at address `p` replaced. -/
def NodeMemory.store {F : Type} (m : NodeMemory F) (p : Nat) (n : NodeLattice F) :
    NodeMemory F :=
  fun q => if q = p then some n else m q

/-- One iteration of the loop of `getNeighbors` (lines 221-241) for loop
counter `i` and projection `motion_projections[i]`; `none` when a null or
dangling pointer is dereferenced. -/
def getNeighborsStep {γ σ F : Type} (A : FloatArith F)
    (motion_table : LatticeMotionTable F) (getIndex : Nat → Nat → Nat → Nat)
    (neighborGetter : NeighborGetter γ F) (collision_checker : GridCollisionChecker σ F)
    (traverse_unknown : Bool) (i : Nat) (proj : MotionPose F) (s : Expansion γ σ F) :
    Option (Expansion γ σ F) :=
  let index := getIndex (A.toUInt proj._x) (A.toUInt proj._y) (A.toUInt proj._theta)
  let r := neighborGetter s.getter s.memory index s.neighbor
  let s1 : Expansion γ σ F :=
    { s with memory := r.2.2.2, getter := r.2.2.1, neighbor := r.2.1 }
  if r.1 then
    match r.2.1 with
    | none => none
    | some p =>
      match r.2.2.2 p with
      | none => none
      | some n =>
        if !n._was_visited then
          let v := NodeLattice.isNodeValid A collision_checker motion_table traverse_unknown
            (n.setPose ⟨proj._x, proj._y, proj._theta⟩) s1.checker
          if v.1 then
            some { s1 with
              memory := s1.memory.store p (v.2.1.setMotionPrimitiveIndex i)
              checker := v.2.2
              neighbors := s1.neighbors ++ [p] }
          else
            some { s1 with memory := s1.memory.store p v.2.1, checker := v.2.2 }
        else
          some s1
  else
    some s1

/-- The loop of `getNeighbors` from loop counter `i` over the remaining
projections. -/
def getNeighborsLoop {γ σ F : Type} (A : FloatArith F)
    (motion_table : LatticeMotionTable F) (getIndex : Nat → Nat → Nat → Nat)
    (neighborGetter : NeighborGetter γ F) (collision_checker : GridCollisionChecker σ F)
    (traverse_unknown : Bool) : Nat → List (MotionPose F) → Expansion γ σ F →
    Option (Expansion γ σ F)
  | _, [], s => some s
  | i, proj :: rest, s =>
    match getNeighborsStep A motion_table getIndex neighborGetter collision_checker
        traverse_unknown i proj s with
    | none => none
    | some s1 =>
      getNeighborsLoop A motion_table getIndex neighborGetter collision_checker
        traverse_unknown (i + 1) rest s1

/-- The body of `getNeighbors` for a given value of `motion_projections`;
the local `neighbor` starts as `nullptr`. -/
def getNeighborsOver {γ σ F : Type} (A : FloatArith F)
    (motion_table : LatticeMotionTable F) (getIndex : Nat → Nat → Nat → Nat)
    (neighborGetter : NeighborGetter γ F) (collision_checker : GridCollisionChecker σ F)
    (traverse_unknown : Bool) (motion_projections : List (MotionPose F))
    (s : Expansion γ σ F) : Option (Expansion γ σ F) :=
  getNeighborsLoop A motion_table getIndex neighborGetter collision_checker
    traverse_unknown 0 motion_projections { s with neighbor := none }

/-- The function `NodeLattice::getNeighbors`; `getIndex` is
`NodeLattice::getIndex`, declared in the header. -/
def NodeLattice.getNeighbors {γ σ F : Type} (A : FloatArith F)
    (motion_table : LatticeMotionTable F) (getIndex : Nat → Nat → Nat → Nat)
    (node : NodeLattice F) (neighborGetter : NeighborGetter γ F)
    (collision_checker : GridCollisionChecker σ F) (traverse_unknown : Bool)
    (s : Expansion γ σ F) : Option (Expansion γ σ F) :=
  getNeighborsOver A motion_table getIndex neighborGetter collision_checker
    traverse_unknown (motion_table.getProjections node) s

/-! ## An executable arithmetic

Values are NaN, the two infinities and exact fractions in lowest terms.
Operations are computed exactly, without rounding to the float format, so on
integers of moderate size they agree with IEEE arithmetic. Conversions to
integer types truncate toward zero. -/

/-- A floating-point value: NaN, an infinity or the fraction `num / den`. -/
inductive ExactFloat
  | nan
  | posInf
  | negInf
  | fin (num : Int) (den : Nat)
  deriving DecidableEq

namespace ExactFloat

/-- The fraction `n / d` in lowest terms. -/
def mk (n : Int) (d : Nat) : ExactFloat :=
  if d = 0 then nan else fin (n / (Nat.gcd n.natAbs d : Int)) (d / Nat.gcd n.natAbs d)

/-- Unary minus. -/
def neg : ExactFloat → ExactFloat
  | nan => nan
  | posInf => negInf
  | negInf => posInf
  | fin n d => fin (-n) d

/-- Addition. -/
def add : ExactFloat → ExactFloat → ExactFloat
  | fin a b, fin c d => mk (a * d + c * b) (b * d)
  | nan, _ => nan
  | _, nan => nan
  | posInf, negInf => nan
  | negInf, posInf => nan
  | posInf, _ => posInf
  | negInf, _ => negInf
  | _, posInf => posInf
  | _, negInf => negInf

/-- Subtraction. -/
def sub (a b : ExactFloat) : ExactFloat := add a (neg b)

/-- The infinity with the sign of `s`, NaN when `s` is zero. -/
def signedInf (s : Int) : ExactFloat :=
  if s = 0 then nan else if 0 < s then posInf else negInf

/-- Multiplication. -/
def mul : ExactFloat → ExactFloat → ExactFloat
  | fin a b, fin c d => mk (a * c) (b * d)
  | nan, _ => nan
  | _, nan => nan
  | posInf, posInf => posInf
  | posInf, negInf => negInf
  | negInf, posInf => negInf
  | negInf, negInf => posInf
  | posInf, fin c _ => signedInf c
  | negInf, fin c _ => signedInf (-c)
  | fin a _, posInf => signedInf a
  | fin a _, negInf => signedInf (-a)

/-- Division. -/
def div : ExactFloat → ExactFloat → ExactFloat
  | fin a b, fin c d =>
    if c = 0 then signedInf a else mk (a * (d : Int) * Int.sign c) (b * c.natAbs)
  | nan, _ => nan
  | _, nan => nan
  | fin _ _, _ => fin 0 1
  | posInf, fin c _ => if 0 ≤ c then posInf else negInf
  | negInf, fin c _ => if 0 ≤ c then negInf else posInf
  | _, _ => nan

/-- Comparison `a < b`, false when an operand is NaN. -/
def lt : ExactFloat → ExactFloat → Bool
  | fin a b, fin c d => decide (a * d < c * b)
  | nan, _ => false
  | _, nan => false
  | negInf, negInf => false
  | negInf, _ => true
  | posInf, _ => false
  | fin _ _, posInf => true
  | fin _ _, negInf => false

/-- The function `floor`. -/
def floor : ExactFloat → ExactFloat
  | fin n d => fin (n / (d : Int)) 1
  | x => x

/-- The function `ceil`. -/
def ceil : ExactFloat → ExactFloat
  | fin n d => fin (-((-n) / (d : Int))) 1
  | x => x

/-- The function `round`: to the nearest integer, halves away from zero. -/
def round : ExactFloat → ExactFloat
  | fin n d =>
    if 0 ≤ n then fin ((2 * n + d) / (2 * (d : Int))) 1
    else fin (-((2 * (-n) + d) / (2 * (d : Int)))) 1
  | x => x

/-- The function `abs`. -/
def abs : ExactFloat → ExactFloat
  | nan => nan
  | posInf => posInf
  | negInf => posInf
  | fin n d => fin (n.natAbs : Int) d

/-- Conversion to `int`: truncation toward zero, `0` for NaN and infinities. -/
def toInt : ExactFloat → Int
  | fin n d => Int.tdiv n d
  | _ => 0

end ExactFloat

/-- Exact arithmetic on `ExactFloat`. The literal `1.207` is the double nearest
to it, and `max_value` is `(2 ^ 24 - 1) * 2 ^ 104`. -/
def exactArith : FloatArith ExactFloat where
  zero := .fin 0 1
  two := .fin 2 1
  c1207 := .fin 5435844750236189 4503599627370496
  quiet_NaN := .nan
  max_value := .fin 340282346638528859811704183484516925440 1
  ofUInt := fun n => .fin n 1
  ofInt := fun i => .fin i 1
  toInt := ExactFloat.toInt
  toUInt := fun x => wrapUInt x.toInt
  toSize := fun x => x.toInt.toNat
  neg := ExactFloat.neg
  add := ExactFloat.add
  sub := ExactFloat.sub
  mul := ExactFloat.mul
  div := ExactFloat.div
  lt := ExactFloat.lt
  round := ExactFloat.round
  floor := ExactFloat.floor
  ceil := ExactFloat.ceil
  abs := ExactFloat.abs

/-! ## Concrete inputs -/

/-- The float with integer value `i`. -/
def flt (i : Int) : ExactFloat := .fin i 1

/-- A motion table for one heading bin on a grid of width 10, built from the
library `"lattice.json"`. -/
def scenarioTable : LatticeMotionTable ExactFloat :=
  { size_x := 10
    num_angle_quantization := 1
    min_turning_radius := flt 1
    bin_size := .fin 6434 1024
    trig_values := [(flt 1, flt 0)]
    current_lattice_filepath := "lattice.json" }

/-- A motion table for four heading bins (0, 90, 180 and 270 degrees) on a
grid of width 10. -/
def quadrantTable : LatticeMotionTable ExactFloat :=
  { size_x := 10
    num_angle_quantization := 4
    min_turning_radius := flt 1
    bin_size := .fin 3217 2048
    trig_values := [(flt 1, flt 0), (flt 0, flt 1), (flt (-1), flt 0), (flt 0, flt (-1))]
    current_lattice_filepath := "lattice.json" }

/-- A node that has been used in a search: at `(5, 5, 0)`, visited, queued,
with costs and a parent. -/
def usedNode : NodeLattice ExactFloat :=
  { parent := some 54
    pose := ⟨flt 5, flt 5, flt 0⟩
    _cell_cost := flt 3
    _accumulated_cost := flt 17
    _index := 55
    _was_visited := true
    _is_queued := true
    _motion_primitive_index := 2 }

/-- A collision checker without state that reports no collision anywhere and
cost 1. -/
def freeChecker : GridCollisionChecker Unit ExactFloat :=
  { inCollision := fun c _ _ _ _ => (false, c)
    getCost := fun c => (flt 1, c) }

/-- A collision checker without state that reports collision everywhere. -/
def blockedChecker : GridCollisionChecker Unit ExactFloat :=
  { inCollision := fun c _ _ _ _ => (true, c)
    getCost := fun c => (flt 254, c) }

/-- The index `theta + x * bins + y * width * bins` for one bin and width 10. -/
def scenarioIndex (x y theta : Nat) : Nat := theta + x * 1 + y * 10 * 1

/-- A node pool that keeps the node of index `i` at address `i` and always
succeeds. -/
def poolGetter : NeighborGetter Unit ExactFloat :=
  fun g memory index _ => (true, some index, g, memory)

/-- Node memory in which every address holds a freshly constructed node. -/
def freshMemory : NodeMemory ExactFloat :=
  fun p => some (NodeLattice.new exactArith p 0)

/-- The node of index 56, at `(6, 5, 0)`, closed by the search: visited, with
costs and the parent at address 55. -/
def closedNode : NodeLattice ExactFloat :=
  { parent := some 55
    pose := ⟨flt 6, flt 5, flt 0⟩
    _cell_cost := flt 2
    _accumulated_cost := flt 18
    _index := 56
    _was_visited := true
    _is_queued := false
    _motion_primitive_index := 1 }

/-- Node memory in which every address holds a freshly constructed node,
except that the node at address 56 is `closedNode`, which is visited. -/
def visitedMemory : NodeMemory ExactFloat :=
  fun p => if p = 56 then some closedNode else some (NodeLattice.new exactArith p 0)

/-- The start of an expansion over `memory` with an empty output vector. -/
def startOf (memory : NodeMemory ExactFloat) : Expansion Unit Unit ExactFloat :=
  { memory := memory, getter := (), checker := (), neighbor := none, neighbors := [] }

/-- The projection to `(6, 5, 0)`. -/
def stepEast : MotionPose ExactFloat := ⟨flt 6, flt 5, flt 0⟩

/-- The node at `(5, 5, 0)`, index 55, that the scenario expands. -/
def scenarioNode : NodeLattice ExactFloat :=
  { NodeLattice.new exactArith 55 0 with pose := ⟨flt 5, flt 5, flt 0⟩ }

/-- The float nearest to the square root of 2, the initial `neutral_cost`. -/
def sqrt2 : ExactFloat := .fin 11863283 8388608

/-- A distance-heuristic table of 60 entries in which entry `i` is `i`; it
serves a window of size 5 with 4 heading bins. -/
def indexTable : List ExactFloat := (List.range 60).map fun i => flt i

/-- A wavefront table for a 10 by 10 grid with `value` in every cell. -/
def constantWavefront (value : Nat) : List Nat := List.replicate 100 value

/-- A motion model enumeration to evaluate `NodeLattice.initMotionModel` on.
The enum `MotionModel` is declared in another header of the package;
`node_lattice.cpp` names only its value `STATE_LATTICE`. -/
inductive MotionModel
  | DUBIN
  | REEDS_SHEPP
  | STATE_LATTICE
  deriving DecidableEq

/-! ## Theorems -/

/-- The loop over `ps ++ qs` is the loop over `ps` followed by the loop over
`qs`, the loop counter advanced by the length of `ps`. -/
theorem getNeighborsLoop_append {γ σ F : Type} (A : FloatArith F)
    (motion_table : LatticeMotionTable F) (getIndex : Nat → Nat → Nat → Nat)
    (neighborGetter : NeighborGetter γ F) (collision_checker : GridCollisionChecker σ F)
    (traverse_unknown : Bool) (ps qs : List (MotionPose F)) :
    ∀ (i : Nat) (s : Expansion γ σ F),
      getNeighborsLoop A motion_table getIndex neighborGetter collision_checker
          traverse_unknown i (ps ++ qs) s =
        (getNeighborsLoop A motion_table getIndex neighborGetter collision_checker
          traverse_unknown i ps s).bind
          (getNeighborsLoop A motion_table getIndex neighborGetter collision_checker
            traverse_unknown (i + ps.length) qs) := by
  induction ps with
  | nil => intro i s; simp [getNeighborsLoop]
  | cons proj rest ih =>
    intro i s
    simp only [List.cons_append, getNeighborsLoop, List.length_cons]
    cases hstep : getNeighborsStep A motion_table getIndex neighborGetter collision_checker
        traverse_unknown i proj s with
    | none => simp
    | some s1 =>
      have hlen : i + 1 + rest.length = i + (rest.length + 1) := by omega
      have h := ih (i + 1) s1
      rw [hlen] at h
      simpa using h

/-- Running the loop one projection further: the run over the first `k + 1`
projections is the run over the first `k` followed by iteration `k`. -/
theorem getNeighborsOver_take_succ {γ σ F : Type} (A : FloatArith F)
    (motion_table : LatticeMotionTable F) (getIndex : Nat → Nat → Nat → Nat)
    (neighborGetter : NeighborGetter γ F) (collision_checker : GridCollisionChecker σ F)
    (traverse_unknown : Bool) (projections : List (MotionPose F)) (k : Nat)
    (proj : MotionPose F) (s : Expansion γ σ F) (hk : projections[k]? = some proj) :
    getNeighborsOver A motion_table getIndex neighborGetter collision_checker
        traverse_unknown (projections.take (k + 1)) s =
      (getNeighborsOver A motion_table getIndex neighborGetter collision_checker
        traverse_unknown (projections.take k) s).bind
        (getNeighborsStep A motion_table getIndex neighborGetter collision_checker
          traverse_unknown k proj) := by
  have hlt : k < projections.length := by
    rcases List.getElem?_eq_some_iff.mp hk with ⟨h, _⟩
    exact h
  have htake : projections.take (k + 1) = projections.take k ++ [proj] := by
    rw [List.take_succ, hk]
    rfl
  have hlen : (projections.take k).length = k := by
    rw [List.length_take]
    omega
  unfold getNeighborsOver
  rw [htake, getNeighborsLoop_append, hlen]
  congr 1
  funext s1
  simp only [Nat.zero_add, getNeighborsLoop]
  cases getNeighborsStep A motion_table getIndex neighborGetter collision_checker
      traverse_unknown k proj s1 <;> rfl

/-- An iteration whose callback succeeds with a visited node only records
what the callback did. -/
theorem getNeighborsStep_visited {γ σ F : Type} (A : FloatArith F)
    (motion_table : LatticeMotionTable F) (getIndex : Nat → Nat → Nat → Nat)
    (neighborGetter : NeighborGetter γ F) (collision_checker : GridCollisionChecker σ F)
    (traverse_unknown : Bool) (i : Nat) (proj : MotionPose F) (s : Expansion γ σ F)
    (p : Nat) (n : NodeLattice F)
    (hfound : (neighborGetter s.getter s.memory
      (getIndex (A.toUInt proj._x) (A.toUInt proj._y) (A.toUInt proj._theta)) s.neighbor).1 = true)
    (hptr : (neighborGetter s.getter s.memory
      (getIndex (A.toUInt proj._x) (A.toUInt proj._y) (A.toUInt proj._theta))
      s.neighbor).2.1 = some p)
    (hnode : (neighborGetter s.getter s.memory
      (getIndex (A.toUInt proj._x) (A.toUInt proj._y) (A.toUInt proj._theta))
      s.neighbor).2.2.2 p = some n)
    (hvis : n._was_visited = true) :
    getNeighborsStep A motion_table getIndex neighborGetter collision_checker
        traverse_unknown i proj s =
      some { s with
        memory := (neighborGetter s.getter s.memory
          (getIndex (A.toUInt proj._x) (A.toUInt proj._y) (A.toUInt proj._theta))
          s.neighbor).2.2.2
        getter := (neighborGetter s.getter s.memory
          (getIndex (A.toUInt proj._x) (A.toUInt proj._y) (A.toUInt proj._theta))
          s.neighbor).2.2.1
        neighbor := some p } := by
  simp only [getNeighborsStep, hfound, hptr, hnode, hvis, if_true]
  simp

/-- An iteration leaves a visited node that the callback does not modify as it
was and does not append it. -/
theorem getNeighborsStep_keeps_visited {γ σ F : Type} (A : FloatArith F)
    (motion_table : LatticeMotionTable F) (getIndex : Nat → Nat → Nat → Nat)
    (neighborGetter : NeighborGetter γ F) (collision_checker : GridCollisionChecker σ F)
    (traverse_unknown : Bool) (p : Nat) (n : NodeLattice F)
    (hframe : ∀ g m idx nb, (neighborGetter g m idx nb).2.2.2 p = m p)
    (hvis : n._was_visited = true) (i : Nat) (proj : MotionPose F)
    (s s1 : Expansion γ σ F) (hmem : s.memory p = some n)
    (hstep : getNeighborsStep A motion_table getIndex neighborGetter collision_checker
      traverse_unknown i proj s = some s1) :
    s1.memory p = some n ∧ s1.neighbors.count p = s.neighbors.count p := by
  have hm := hframe s.getter s.memory
    (getIndex (A.toUInt proj._x) (A.toUInt proj._y) (A.toUInt proj._theta)) s.neighbor
  rw [hmem] at hm
  unfold getNeighborsStep at hstep
  simp only at hstep
  split at hstep
  · split at hstep
    · exact absurd hstep (by simp)
    · rename_i q hq
      split at hstep
      · exact absurd hstep (by simp)
      · rename_i nq hnq
        by_cases hqp : q = p
        · subst hqp
          rw [hm] at hnq
          have hnn : n = nq := Option.some.inj hnq
          subst hnn
          simp only [hvis, Bool.not_true, Bool.false_eq_true, if_false] at hstep
          have hs1 := Option.some.inj hstep
          subst hs1
          exact ⟨hm, rfl⟩
        · have hpq : ¬ p = q := fun h => hqp h.symm
          split at hstep
          · split at hstep
            · have hs1 := Option.some.inj hstep
              subst hs1
              refine ⟨?_, ?_⟩
              · simp only [NodeMemory.store, hpq, if_false]
                exact hm
              · simp [List.count_append, List.count_cons, hqp, hpq]
            · have hs1 := Option.some.inj hstep
              subst hs1
              refine ⟨?_, rfl⟩
              simp only [NodeMemory.store, hpq, if_false]
              exact hm
          · have hs1 := Option.some.inj hstep
            subst hs1
            exact ⟨hm, rfl⟩
  · have hs1 := Option.some.inj hstep
    subst hs1
    exact ⟨hm, rfl⟩

/-- A whole run of `getNeighbors` leaves a visited node that the callback
does not modify as it was and never appends it to the output. -/
theorem getNeighborsOver_keeps_visited {γ σ F : Type} (A : FloatArith F)
    (motion_table : LatticeMotionTable F) (getIndex : Nat → Nat → Nat → Nat)
    (neighborGetter : NeighborGetter γ F) (collision_checker : GridCollisionChecker σ F)
    (traverse_unknown : Bool) (p : Nat) (n : NodeLattice F)
    (hframe : ∀ g m idx nb, (neighborGetter g m idx nb).2.2.2 p = m p)
    (hvis : n._was_visited = true) (projections : List (MotionPose F))
    (s s1 : Expansion γ σ F) (hmem : s.memory p = some n)
    (hrun : getNeighborsOver A motion_table getIndex neighborGetter collision_checker
      traverse_unknown projections s = some s1) :
    s1.memory p = some n ∧ s1.neighbors.count p = s.neighbors.count p := by
  have key : ∀ (ps : List (MotionPose F)) (i : Nat) (a b : Expansion γ σ F),
      a.memory p = some n →
      getNeighborsLoop A motion_table getIndex neighborGetter collision_checker
        traverse_unknown i ps a = some b →
      b.memory p = some n ∧ b.neighbors.count p = a.neighbors.count p := by
    intro ps
    induction ps with
    | nil =>
      intro i a b ha hb
      simp only [getNeighborsLoop] at hb
      have hab := Option.some.inj hb
      subst hab
      exact ⟨ha, rfl⟩
    | cons proj rest ih =>
      intro i a b ha hb
      simp only [getNeighborsLoop] at hb
      cases hstep : getNeighborsStep A motion_table getIndex neighborGetter collision_checker
          traverse_unknown i proj a with
      | none => rw [hstep] at hb; exact absurd hb (by simp)
      | some c =>
        rw [hstep] at hb
        have hc := getNeighborsStep_keeps_visited A motion_table getIndex neighborGetter
          collision_checker traverse_unknown p n hframe hvis i proj a c ha hstep
        have hb2 := ih (i + 1) c b hc.1 hb
        exact ⟨hb2.1, hb2.2.trans hc.2⟩
  exact key projections 0 { s with neighbor := none } s1 hmem hrun

/-- C1: `isNodeValid` queries the checker at
`(pose.x, pose.y, pose.theta * bin_size, traverse_unknown)`; it returns false
exactly when that query reports collision, and the checker is then left as the
query left it; the cached cell cost is the old one when it returns false and
the cost the checker reports after the query when it returns true; the checker
is then as `getCost` left it; pose, accumulated cost, visited, queued, parent,
index and motion primitive index are unchanged in either case. -/
theorem isNodeValid_queries_checker_and_caches_cost {σ F : Type} (A : FloatArith F)
    (collision_checker : GridCollisionChecker σ F) (motion_table : LatticeMotionTable F)
    (traverse_unknown : Bool) (n : NodeLattice F) (c : σ) :
    let q := collision_checker.inCollision c n.pose.x n.pose.y
      (A.mul n.pose.theta motion_table.bin_size) traverse_unknown
    let r := NodeLattice.isNodeValid A collision_checker motion_table traverse_unknown n c
    (r.1 = false ↔ q.1 = true) ∧
    r.2.1._cell_cost = (if r.1 then (collision_checker.getCost q.2).1 else n._cell_cost) ∧
    r.2.2 = (if r.1 then (collision_checker.getCost q.2).2 else q.2) ∧
    r.2.1.pose = n.pose ∧
    r.2.1._accumulated_cost = n._accumulated_cost ∧
    r.2.1._was_visited = n._was_visited ∧
    r.2.1._is_queued = n._is_queued ∧
    r.2.1.parent = n.parent ∧
    r.2.1._index = n._index ∧
    r.2.1._motion_primitive_index = n._motion_primitive_index := by
  intro q r
  by_cases h : (collision_checker.inCollision c n.pose.x n.pose.y
      (A.mul n.pose.theta motion_table.bin_size) traverse_unknown).1 = true
  · have hr : r = (false, n, q.2) := by
      simp only [r, q, NodeLattice.isNodeValid, h, if_true]
    rw [hr]
    simp [q, h]
  · have hr : r = (true, { n with _cell_cost := (collision_checker.getCost q.2).1 },
        (collision_checker.getCost q.2).2) := by
      simp only [r, q, NodeLattice.isNodeValid, h, if_false]
      simp
    rw [hr]
    simp [q, h]

/-- C2: when iteration `k` of the loop of `getNeighbors` examines a node
that is marked visited (the callback succeeds and hands back `p`, and the
node at `p` is visited), the iteration appends nothing to the output and
writes to no node: after it the output vector and the collision checker are
as they were before it and node memory is as the callback left it, so every
field of the visited node is unchanged. -/
theorem getNeighbors_skips_visited_successor {γ σ F : Type} (A : FloatArith F)
    (motion_table : LatticeMotionTable F) (getIndex : Nat → Nat → Nat → Nat)
    (neighborGetter : NeighborGetter γ F) (collision_checker : GridCollisionChecker σ F)
    (traverse_unknown : Bool) (projections : List (MotionPose F)) (k : Nat)
    (proj : MotionPose F) (s0 sk : Expansion γ σ F) (p : Nat) (n : NodeLattice F)
    (hk : projections[k]? = some proj)
    (hrun : getNeighborsOver A motion_table getIndex neighborGetter collision_checker
      traverse_unknown (projections.take k) s0 = some sk)
    (hfound : (neighborGetter sk.getter sk.memory
      (getIndex (A.toUInt proj._x) (A.toUInt proj._y) (A.toUInt proj._theta))
      sk.neighbor).1 = true)
    (hptr : (neighborGetter sk.getter sk.memory
      (getIndex (A.toUInt proj._x) (A.toUInt proj._y) (A.toUInt proj._theta))
      sk.neighbor).2.1 = some p)
    (hnode : (neighborGetter sk.getter sk.memory
      (getIndex (A.toUInt proj._x) (A.toUInt proj._y) (A.toUInt proj._theta))
      sk.neighbor).2.2.2 p = some n)
    (hvis : n._was_visited = true) :
    ∃ s1, getNeighborsOver A motion_table getIndex neighborGetter collision_checker
        traverse_unknown (projections.take (k + 1)) s0 = some s1 ∧
      s1.neighbors = sk.neighbors ∧
      s1.memory = (neighborGetter sk.getter sk.memory
        (getIndex (A.toUInt proj._x) (A.toUInt proj._y) (A.toUInt proj._theta))
        sk.neighbor).2.2.2 ∧
      s1.memory p = some n ∧
      s1.checker = sk.checker := by
  refine ⟨{ sk with
    memory := (neighborGetter sk.getter sk.memory
      (getIndex (A.toUInt proj._x) (A.toUInt proj._y) (A.toUInt proj._theta))
      sk.neighbor).2.2.2
    getter := (neighborGetter sk.getter sk.memory
      (getIndex (A.toUInt proj._x) (A.toUInt proj._y) (A.toUInt proj._theta))
      sk.neighbor).2.2.1
    neighbor := some p }, ?_, rfl, rfl, hnode, rfl⟩
  rw [getNeighborsOver_take_succ A motion_table getIndex neighborGetter collision_checker
    traverse_unknown projections k proj s0 hk, hrun]
  exact getNeighborsStep_visited A motion_table getIndex neighborGetter collision_checker
    traverse_unknown k proj sk p n hfound hptr hnode hvis

/-- C2 at a concrete expansion: the projection to `(6, 5, 0)` resolves to the
visited node at address 56; nothing is appended and the node is unchanged. -/
theorem getNeighbors_skips_visited_successor_witness :
    ∃ s1, getNeighborsOver exactArith scenarioTable scenarioIndex poolGetter freeChecker true
        (List.take (0 + 1) [stepEast]) (startOf visitedMemory) = some s1 ∧
      s1.neighbors = [] ∧
      s1.memory = visitedMemory ∧
      s1.memory 56 = some closedNode ∧
      s1.checker = () :=
  getNeighbors_skips_visited_successor exactArith scenarioTable scenarioIndex poolGetter
    freeChecker true [stepEast] 0 stepEast (startOf visitedMemory) (startOf visitedMemory)
    56 closedNode rfl rfl rfl rfl rfl rfl

/-- C3 fails on the code: `getProjections` returns no projection, so
`getNeighbors` returns an empty list for the node at `(5, 5, 0)` although the
checker reports no collision anywhere (and likewise for every node and
table). The loop itself does what the scenario asks: given the projection to
`(6, 5, 0)` it returns the one successor at address 56, with pose `(6, 5, 0)`,
cell cost 1 and motion primitive index 0, and nothing when the checker
reports collision. -/
theorem getNeighbors_scenario_yields_no_successor :
    (NodeLattice.getNeighbors exactArith scenarioTable scenarioIndex scenarioNode poolGetter
      freeChecker true (startOf freshMemory)).map (fun s => s.neighbors) = some [] ∧
    (∀ (γ σ F : Type) (A : FloatArith F) (motion_table : LatticeMotionTable F)
      (getIndex : Nat → Nat → Nat → Nat) (node : NodeLattice F)
      (neighborGetter : NeighborGetter γ F) (collision_checker : GridCollisionChecker σ F)
      (traverse_unknown : Bool) (s : Expansion γ σ F),
      NodeLattice.getNeighbors A motion_table getIndex node neighborGetter collision_checker
        traverse_unknown s = some { s with neighbor := none }) ∧
    (getNeighborsOver exactArith scenarioTable scenarioIndex poolGetter freeChecker true
      [stepEast] (startOf freshMemory)).map (fun s => s.neighbors) = some [56] ∧
    (getNeighborsOver exactArith scenarioTable scenarioIndex poolGetter freeChecker true
      [stepEast] (startOf freshMemory)).bind (fun s => s.memory 56) =
      some { NodeLattice.new exactArith 56 0 with
        pose := ⟨flt 6, flt 5, flt 0⟩, _cell_cost := flt 1, _motion_primitive_index := 0 } ∧
    (getNeighborsOver exactArith scenarioTable scenarioIndex poolGetter blockedChecker true
      [stepEast] (startOf freshMemory)).map (fun s => s.neighbors) = some [] := by
  refine ⟨by decide, ?_, by decide, by decide, by decide⟩
  intro γ σ F A motion_table getIndex node neighborGetter collision_checker traverse_unknown s
  rfl

/-- C4, as stated, fails: calling `LatticeMotionTable::initMotionModel` with
the cached library reference but another grid width changes `size_x`
(here from 10 to 20). -/
theorem initMotionModel_same_reference_changes_size_x :
    scenarioTable.current_lattice_filepath = "lattice.json" ∧
    scenarioTable.size_x = 10 ∧
    (scenarioTable.initMotionModel 20 ⟨"lattice.json"⟩).size_x = 20 ∧
    scenarioTable.initMotionModel 20 ⟨"lattice.json"⟩ ≠ scenarioTable := by
  decide

/-- C4, amended: a call of `LatticeMotionTable::initMotionModel` with the
cached library reference stores the grid width argument in `size_x` and
leaves every other field of the table as it was; it changes nothing when the
grid width is the stored one as well. -/
theorem initMotionModel_same_reference_only_sets_size_x {F : Type}
    (t : LatticeMotionTable F) (size_x_in : Nat) (search_info : SearchInfo)
    (h : t.current_lattice_filepath = search_info.lattice_filepath) :
    t.initMotionModel size_x_in search_info = { t with size_x := size_x_in } ∧
    (size_x_in = t.size_x → t.initMotionModel size_x_in search_info = t) := by
  have h1 : t.initMotionModel size_x_in search_info = { t with size_x := size_x_in } := by
    simp [LatticeMotionTable.initMotionModel, h]
  refine ⟨h1, ?_⟩
  intro hs
  rw [h1, hs]

/-- C4 at a concrete table: the cached reference with grid width 20. -/
theorem initMotionModel_same_reference_only_sets_size_x_witness :
    scenarioTable.current_lattice_filepath = (⟨"lattice.json"⟩ : SearchInfo).lattice_filepath ∧
    scenarioTable.initMotionModel 20 ⟨"lattice.json"⟩ = { scenarioTable with size_x := 20 } :=
  ⟨by decide,
    (initMotionModel_same_reference_only_sets_size_x scenarioTable 20 ⟨"lattice.json"⟩
      (by decide)).1⟩

/-- C5, as stated, fails: after `reset()` the accumulated cost of a node is
not +infinity. -/
theorem reset_accumulated_cost_is_not_infinity :
    (NodeLattice.reset exactArith usedNode)._accumulated_cost ≠ ExactFloat.posInf := by
  decide

/-- C5, amended: after `reset()` the accumulated cost is
`std::numeric_limits<float>::max()`, the value the constructor gives it;
visited and queued are false, the parent pointer is null, the cell cost is
NaN, the pose is `(0, 0, 0)`; the index (and the motion primitive index) are
unchanged. So `reset()` gives the state of a newly constructed node. -/
theorem reset_restores_constructed_state {F : Type} (A : FloatArith F) (n : NodeLattice F) :
    (NodeLattice.reset A n)._accumulated_cost = A.max_value ∧
    (NodeLattice.reset A n)._was_visited = false ∧
    (NodeLattice.reset A n)._is_queued = false ∧
    (NodeLattice.reset A n).parent = none ∧
    (NodeLattice.reset A n)._cell_cost = A.quiet_NaN ∧
    (NodeLattice.reset A n).pose = ⟨A.zero, A.zero, A.zero⟩ ∧
    (NodeLattice.reset A n)._index = n._index ∧
    (NodeLattice.reset A n)._motion_primitive_index = n._motion_primitive_index ∧
    NodeLattice.reset A n = NodeLattice.new A n._index n._motion_primitive_index := by
  simp [NodeLattice.reset, NodeLattice.new]

/-- The comparison of `exactArith` is irreflexive. -/
theorem exactArith_lt_irrefl (a : ExactFloat) : exactArith.lt a a = false := by
  cases a <;> simp [exactArith, ExactFloat.lt]

/-- The comparison of `exactArith` is asymmetric. -/
theorem exactArith_lt_asymm (a b : ExactFloat) (h : exactArith.lt a b = true) :
    exactArith.lt b a = false := by
  cases a <;> cases b <;> simp_all [exactArith, ExactFloat.lt]
  omega

/-- The function `std::max` returns one of its arguments, and neither argument
is greater than it, for every irreflexive and asymmetric comparison. -/
theorem stdMax_is_maximum {F : Type} (A : FloatArith F)
    (hirr : ∀ a, A.lt a a = false) (hasym : ∀ a b, A.lt a b = true → A.lt b a = false)
    (a b : F) :
    (stdMax A a b = a ∨ stdMax A a b = b) ∧
    A.lt (stdMax A a b) a = false ∧ A.lt (stdMax A a b) b = false := by
  unfold stdMax
  by_cases h : A.lt a b = true
  · rw [if_pos h]
    exact ⟨Or.inr rfl, hasym a b h, hirr b⟩
  · rw [if_neg h]
    refine ⟨Or.inl rfl, hirr a, ?_⟩
    simpa using h

/-- A read through an `int` index that was formed in `unsigned int`: it reads
the entry at the unsigned value when that value is below `2 ^ 31`, and is
outside the table otherwise. -/
theorem readAt_asInt_wrapUInt {α : Type} (table : List α) (e : Int) :
    readAt table (asInt (wrapUInt e)) =
      if (e % 4294967296).toNat < 2147483648 then table[(e % 4294967296).toNat]? else none := by
  have hu : wrapUInt e = (e % 4294967296).toNat := by
    simp [wrapUInt, UINT_MOD]
  have hlt : ((e % 4294967296).toNat : Int) < 4294967296 := by
    have h1 : e % 4294967296 < 4294967296 := Int.emod_lt_of_pos e (by norm_num)
    have h2 : 0 ≤ e % 4294967296 := Int.emod_nonneg e (by norm_num)
    omega
  rw [hu]
  unfold readAt asInt
  by_cases h : (e % 4294967296).toNat < 2147483648
  · have h31 : (e % 4294967296).toNat < 2 ^ 31 := by norm_num; exact h
    rw [if_pos h31, if_pos h]
    have hnn : ¬ (((e % 4294967296).toNat : Int) < 0) := by omega
    rw [if_neg hnn, Int.toNat_ofNat]
  · have h31 : ¬ (e % 4294967296).toNat < 2 ^ 31 := by norm_num; omega
    rw [if_neg h31, if_neg h]
    have hneg : ((e % 4294967296).toNat : Int) - ((UINT_MOD : Nat) : Int) < 0 := by
      simp only [UINT_MOD]
      norm_num
      omega
    rw [if_pos hneg]

/-- C6: `getHeuristicCost` returns `neutral_cost * std::max(wterm, d)`, which
is the maximum of the two terms (one of them, and neither is greater than
it), where every quantity is written out in the operations of the arithmetic:

* `(c, s)` is the trig cache entry of the goal heading bin;
* `rx`, `ry` are the rounded coordinates of the node relative to the goal,
  rotated by `(c, -s)`, and `rt` the rounded relative heading bin after its
  wrap;
* `half` is the window half-size `floor(size_lookup / 2.0)`;
* `d`, the distance term, is the entry `u` of the windowed table when
  `|rx| < half` and `|ry| < half`, where `u` is the `unsigned int` index
  `x_pos * ceiling_size * n + y_pos * n + theta_pos` (which must be a valid
  `int`), and is `0.0` otherwise;
* `w` is the wavefront table entry at `y * size_x + x` for the node's cell and
  `wterm` the wavefront term `(w - 2) * 1.207`, the difference formed in
  `unsigned int`. -/
theorem getHeuristicCost_is_neutral_cost_times_maximum {F : Type} (A : FloatArith F)
    (hirr : ∀ a, A.lt a a = false) (hasym : ∀ a b, A.lt a b = true → A.lt b a = false)
    (motion_table : LatticeMotionTable F) (neutral_cost size_lookup : F)
    (dist_heuristic_lookup : List F) (wavefront_heuristic_lookup_table : List Nat)
    (node_coords goal_coords : Coordinates F)
    (c s rx ry rt d wterm m : F) (half theta_pos : Int) (u w : Nat)
    (htrig : motion_table.trig_values[A.toSize goal_coords.theta]? = some (c, s))
    (hrx : rx = A.round (A.sub (A.mul (A.sub node_coords.x goal_coords.x) c)
      (A.mul (A.sub node_coords.y goal_coords.y) (A.neg s))))
    (hry : ry = A.round (A.add (A.mul (A.sub node_coords.x goal_coords.x) (A.neg s))
      (A.mul (A.sub node_coords.y goal_coords.y) c)))
    (hrt : rt = A.round
      (if A.lt (A.ofUInt motion_table.num_angle_quantization)
          (A.sub node_coords.theta goal_coords.theta) = true then
        A.sub (A.sub node_coords.theta goal_coords.theta)
          (A.ofUInt motion_table.num_angle_quantization)
      else if A.lt (A.sub node_coords.theta goal_coords.theta) A.zero = true then
        A.add (A.sub node_coords.theta goal_coords.theta)
          (A.ofUInt motion_table.num_angle_quantization)
      else A.sub node_coords.theta goal_coords.theta))
    (hhalf : half = A.toInt (A.floor (A.div size_lookup A.two)))
    (htheta : theta_pos =
      if A.lt ry A.zero = true then
        A.toInt (A.sub (A.ofUInt motion_table.num_angle_quantization) rt)
      else A.toInt rt)
    (hu : u = ((A.toInt (A.add rx (A.ofInt half)) *
        A.toInt (A.ceil (A.div size_lookup A.two)) *
        (motion_table.num_angle_quantization : Int) +
      A.toInt (A.abs ry) * (motion_table.num_angle_quantization : Int) +
      theta_pos) % 4294967296).toNat)
    (hd : (if A.lt (A.abs rx) (A.ofInt half) = true ∧ A.lt (A.abs ry) (A.ofInt half) = true then
        (if u < 2147483648 then dist_heuristic_lookup[u]? else none)
      else some A.zero) = some d)
    (hw : wavefront_heuristic_lookup_table[
      (A.toUInt node_coords.y * motion_table.size_x + A.toUInt node_coords.x) %
        4294967296]? = some w)
    (hwterm : wterm = A.mul (A.ofUInt ((w + 4294967296 - 2) % 4294967296)) A.c1207)
    (hm : m = if A.lt wterm d = true then d else wterm) :
    NodeLattice.getHeuristicCost A motion_table neutral_cost size_lookup
        dist_heuristic_lookup wavefront_heuristic_lookup_table node_coords goal_coords =
        some (A.mul neutral_cost m) ∧
      (m = wterm ∨ m = d) ∧
      A.lt m wterm = false ∧ A.lt m d = false := by
  have hmax : m = stdMax A wterm d := by rw [hm]; rfl
  refine ⟨?_, ?_⟩
  · have hrel : relativeCoords A motion_table node_coords goal_coords =
        some ⟨rx, ry, rt⟩ := by
      simp only [relativeCoords, htrig, wrapThetaBin, hrx, hry, hrt]
    have hmot : motionHeuristic A motion_table size_lookup dist_heuristic_lookup
        ⟨rx, ry, rt⟩ = some d := by
      rw [← hd]
      unfold motionHeuristic inWindow lookupIndex thetaPos flooredSize ceilingSize
      simp only [readAt_asInt_wrapUInt, Bool.and_eq_true, ← hhalf, ← htheta, ← hu]
    have hidx : wavefrontIdx A motion_table node_coords =
        (A.toUInt node_coords.y * motion_table.size_x + A.toUInt node_coords.x) %
          4294967296 := by
      simp [wavefrontIdx, UINT_MOD]
    have hwave : wavefrontHeuristic A w = wterm := by
      rw [hwterm]
      simp [wavefrontHeuristic, wavefrontOffset, UINT_MOD]
    simp only [NodeLattice.getHeuristicCost, hrel, hmot, hidx, hw, hwave, hmax]
  · rw [hmax]
    exact stdMax_is_maximum A hirr hasym wterm d

/-- C6 at three concrete queries with four heading bins, a window of size 5,
the goal at cell `(5, 5)` and wavefront value 5 (wavefront term
`3 * 1.207`). Inside the window without rotation: node `(5, 6, 0)`, goal bin
0, distance term is entry 28 and is the maximum. Outside the window: node
`(9, 9, 0)`, the distance term is `0.0` and the wavefront term is the
maximum. Inside the window with the goal at 90 degrees and a wrapped relative
heading bin: node `(5, 6, 0)`, goal bin 1, relative coordinates `(1, 0, 3)`,
distance term is entry 39. In no case is the result the sum of the terms. -/
theorem getHeuristicCost_is_neutral_cost_times_maximum_witness :
    (NodeLattice.getHeuristicCost exactArith quadrantTable sqrt2 (flt 5) indexTable
        (constantWavefront 5) ⟨flt 5, flt 6, flt 0⟩ ⟨flt 5, flt 5, flt 0⟩ =
        some (exactArith.mul sqrt2 (flt 28)) ∧
      (flt 28 = wavefrontHeuristic exactArith 5 ∨ flt 28 = flt 28) ∧
      exactArith.lt (flt 28) (wavefrontHeuristic exactArith 5) = false ∧
      exactArith.lt (flt 28) (flt 28) = false) ∧
    (NodeLattice.getHeuristicCost exactArith quadrantTable sqrt2 (flt 5) indexTable
        (constantWavefront 5) ⟨flt 9, flt 9, flt 0⟩ ⟨flt 5, flt 5, flt 0⟩ =
        some (exactArith.mul sqrt2 (wavefrontHeuristic exactArith 5)) ∧
      (wavefrontHeuristic exactArith 5 = wavefrontHeuristic exactArith 5 ∨
        wavefrontHeuristic exactArith 5 = flt 0) ∧
      exactArith.lt (wavefrontHeuristic exactArith 5) (wavefrontHeuristic exactArith 5) =
        false ∧
      exactArith.lt (wavefrontHeuristic exactArith 5) (flt 0) = false) ∧
    (NodeLattice.getHeuristicCost exactArith quadrantTable sqrt2 (flt 5) indexTable
        (constantWavefront 5) ⟨flt 5, flt 6, flt 0⟩ ⟨flt 5, flt 5, flt 1⟩ =
        some (exactArith.mul sqrt2 (flt 39)) ∧
      (flt 39 = wavefrontHeuristic exactArith 5 ∨ flt 39 = flt 39) ∧
      exactArith.lt (flt 39) (wavefrontHeuristic exactArith 5) = false ∧
      exactArith.lt (flt 39) (flt 39) = false) ∧
    exactArith.mul sqrt2 (flt 28) ≠
      exactArith.mul sqrt2 (exactArith.add (flt 28) (wavefrontHeuristic exactArith 5)) :=
  ⟨getHeuristicCost_is_neutral_cost_times_maximum exactArith exactArith_lt_irrefl
      exactArith_lt_asymm quadrantTable sqrt2 (flt 5) indexTable (constantWavefront 5)
      ⟨flt 5, flt 6, flt 0⟩ ⟨flt 5, flt 5, flt 0⟩
      (flt 1) (flt 0) (flt 0) (flt 1) (flt 0) (flt 28) (wavefrontHeuristic exactArith 5)
      (flt 28) 2 0 28 5
      (by decide) (by decide) (by decide) (by decide) (by decide) (by decide) (by decide)
      (by decide) (by decide) (by decide) (by decide),
    getHeuristicCost_is_neutral_cost_times_maximum exactArith exactArith_lt_irrefl
      exactArith_lt_asymm quadrantTable sqrt2 (flt 5) indexTable (constantWavefront 5)
      ⟨flt 9, flt 9, flt 0⟩ ⟨flt 5, flt 5, flt 0⟩
      (flt 1) (flt 0) (flt 4) (flt 4) (flt 0) (flt 0) (wavefrontHeuristic exactArith 5)
      (wavefrontHeuristic exactArith 5) 2 0 88 5
      (by decide) (by decide) (by decide) (by decide) (by decide) (by decide) (by decide)
      (by decide) (by decide) (by decide) (by decide),
    getHeuristicCost_is_neutral_cost_times_maximum exactArith exactArith_lt_irrefl
      exactArith_lt_asymm quadrantTable sqrt2 (flt 5) indexTable (constantWavefront 5)
      ⟨flt 5, flt 6, flt 0⟩ ⟨flt 5, flt 5, flt 1⟩
      (flt 0) (flt 1) (flt 1) (flt 0) (flt 3) (flt 39) (wavefrontHeuristic exactArith 5)
      (flt 39) 2 3 39 5
      (by decide) (by decide) (by decide) (by decide) (by decide) (by decide) (by decide)
      (by decide) (by decide) (by decide) (by decide),
    by decide⟩

/-- C7 fails on the code: for the table values 0 and 1 the `unsigned int`
subtraction `wavefront_value - 2` wraps to 4294967294 and 4294967295, so the
wavefront term is the product of that number and 1.207 (above five thousand
million), not zero; for the value 2 it is zero. With value 0 in the node's
cell the whole heuristic is `neutral_cost` times that product. -/
theorem wavefrontHeuristic_below_sentinel_wraps :
    wavefrontOffset 0 = 4294967294 ∧
    wavefrontOffset 1 = 4294967295 ∧
    wavefrontOffset 2 = 0 ∧
    (∀ (F : Type) (A : FloatArith F),
      wavefrontHeuristic A 0 = A.mul (A.ofUInt 4294967294) A.c1207 ∧
      wavefrontHeuristic A 1 = A.mul (A.ofUInt 4294967295) A.c1207 ∧
      wavefrontHeuristic A 2 = A.mul (A.ofUInt 0) A.c1207) ∧
    wavefrontHeuristic exactArith 0 ≠ flt 0 ∧
    wavefrontHeuristic exactArith 1 ≠ flt 0 ∧
    wavefrontHeuristic exactArith 2 = flt 0 ∧
    exactArith.lt (flt 5000000000) (wavefrontHeuristic exactArith 0) = true ∧
    exactArith.lt (flt 5000000000) (wavefrontHeuristic exactArith 1) = true ∧
    NodeLattice.getHeuristicCost exactArith quadrantTable sqrt2 (flt 5) indexTable
      (constantWavefront 0) ⟨flt 5, flt 5, flt 0⟩ ⟨flt 5, flt 5, flt 0⟩ =
      some (exactArith.mul sqrt2 (exactArith.mul (flt 4294967294) exactArith.c1207)) := by
  refine ⟨by decide, by decide, by decide, fun _ _ => ⟨rfl, rfl, rfl⟩, by decide, by decide,
    by decide, by decide, by decide, by decide⟩

/-- C8 fails on the code for the relative heading bin 0: with four heading
bins and a window of size 5 the lookup for relative coordinates `(0, 1, 0)`
reads table index 28, and the lookup for the mirrored coordinates
`(0, -1, 0)` reads index 32, because `theta_pos` is `4 - 0 = 4`, not wrapped
to 0. The nodes at `(5, 6, 0)` and `(5, 4, 0)` with the goal at `(5, 5, 0)`
have these relative coordinates and get different heuristic values. -/
theorem mirrored_lookup_differs_at_heading_bin_zero :
    inWindow exactArith (flt 5) ⟨flt 0, flt 1, flt 0⟩ = true ∧
    inWindow exactArith (flt 5) ⟨flt 0, flt (-1), flt 0⟩ = true ∧
    lookupIndex exactArith quadrantTable (flt 5) ⟨flt 0, flt 1, flt 0⟩ = 28 ∧
    lookupIndex exactArith quadrantTable (flt 5) ⟨flt 0, flt (-1), flt 0⟩ = 32 ∧
    motionHeuristic exactArith quadrantTable (flt 5) indexTable ⟨flt 0, flt 1, flt 0⟩ =
      some (flt 28) ∧
    motionHeuristic exactArith quadrantTable (flt 5) indexTable ⟨flt 0, flt (-1), flt 0⟩ =
      some (flt 32) ∧
    relativeCoords exactArith quadrantTable ⟨flt 5, flt 6, flt 0⟩ ⟨flt 5, flt 5, flt 0⟩ =
      some ⟨flt 0, flt 1, flt 0⟩ ∧
    relativeCoords exactArith quadrantTable ⟨flt 5, flt 4, flt 0⟩ ⟨flt 5, flt 5, flt 0⟩ =
      some ⟨flt 0, flt (-1), flt 0⟩ ∧
    NodeLattice.getHeuristicCost exactArith quadrantTable sqrt2 (flt 5) indexTable
      (constantWavefront 2) ⟨flt 5, flt 6, flt 0⟩ ⟨flt 5, flt 5, flt 0⟩ =
      some (exactArith.mul sqrt2 (flt 28)) ∧
    NodeLattice.getHeuristicCost exactArith quadrantTable sqrt2 (flt 5) indexTable
      (constantWavefront 2) ⟨flt 5, flt 4, flt 0⟩ ⟨flt 5, flt 5, flt 0⟩ =
      some (exactArith.mul sqrt2 (flt 32)) := by
  refine ⟨by decide, by decide, by decide, by decide, by decide, by decide, by decide,
    by decide, by decide, by decide⟩

/-- In exact arithmetic the wavefront term is never negative, for any table
value. -/
theorem wavefrontHeuristic_never_negative (wavefront_value : Nat) :
    exactArith.lt (wavefrontHeuristic exactArith wavefront_value) exactArith.zero = false := by
  have hnum : (0 : Int) ≤
      ((wavefrontOffset wavefront_value : Int) * 5435844750236189) /
        ((Nat.gcd ((wavefrontOffset wavefront_value : Int) * 5435844750236189).natAbs
          (1 * 4503599627370496) : Nat) : Int) :=
    Int.ediv_nonneg (by positivity) (by positivity)
  simp only [wavefrontHeuristic, exactArith, ExactFloat.mul, ExactFloat.mk]
  rw [if_neg (by decide)]
  simp only [ExactFloat.lt, decide_eq_false_iff_not, not_lt]
  simpa using hnum

/-- In exact arithmetic the lookups for relative coordinates `(x, y, t)` with
`y > 0` and for the mirrored coordinates `(x, -y, (n - t) mod n)` read the
same table index whenever the relative heading bin `t` is at least 1 and
below the number of bins `n`, and both are inside the window or both
outside. -/
theorem mirrored_lookup_agrees_above_heading_bin_zero
    (motion_table : LatticeMotionTable ExactFloat) (size_lookup : ExactFloat) (x y t : Int)
    (hy : 0 < y) (ht : 1 ≤ t) (htn : t < motion_table.num_angle_quantization) :
    lookupIndex exactArith motion_table size_lookup ⟨flt x, flt y, flt t⟩ =
      lookupIndex exactArith motion_table size_lookup
        ⟨flt x, flt (-y), flt (((motion_table.num_angle_quantization : Int) - t) %
          (motion_table.num_angle_quantization : Int))⟩ ∧
    inWindow exactArith size_lookup ⟨flt x, flt y, flt t⟩ =
      inWindow exactArith size_lookup
        ⟨flt x, flt (-y), flt (((motion_table.num_angle_quantization : Int) - t) %
          (motion_table.num_angle_quantization : Int))⟩ := by
  have h1 : ¬ (y < 0) := by omega
  have h2 : -y < 0 := by omega
  have habs : ((-y).natAbs : Int) = (y.natAbs : Int) := by simp
  have hmod : ((motion_table.num_angle_quantization : Int) - t) %
      (motion_table.num_angle_quantization : Int) =
      (motion_table.num_angle_quantization : Int) - t :=
    Int.emod_eq_of_lt (by omega) (by omega)
  rw [hmod]
  constructor
  · simp only [lookupIndex, thetaPos, exactArith, flt, ExactFloat.lt, ExactFloat.abs,
      ExactFloat.toInt, ExactFloat.sub, ExactFloat.neg, ExactFloat.add, ExactFloat.mk,
      Int.mul_one, Int.zero_mul, Nat.mul_one, Nat.gcd_one_right, Nat.div_self, habs,
      Int.tdiv_one, Nat.cast_one, Int.ediv_one, decide_eq_true_eq, h1, h2, if_true, if_false,
      one_ne_zero, Nat.lt_irrefl, Nat.one_pos]
    congr 2
    ring
  · simp only [inWindow, exactArith, flt, ExactFloat.abs, habs]

/-- The mirrored lookups agree at a concrete pair: `(0, 1, 1)` and
`(0, -1, 3)` with four heading bins both read index 29. -/
theorem mirrored_lookup_agrees_above_heading_bin_zero_witness :
    lookupIndex exactArith quadrantTable (flt 5) ⟨flt 0, flt 1, flt 1⟩ = 29 ∧
    lookupIndex exactArith quadrantTable (flt 5) ⟨flt 0, flt (-1), flt 3⟩ = 29 ∧
    lookupIndex exactArith quadrantTable (flt 5) ⟨flt 0, flt 1, flt 1⟩ =
      lookupIndex exactArith quadrantTable (flt 5)
        ⟨flt 0, flt (-1), flt (((quadrantTable.num_angle_quantization : Int) - 1) %
          (quadrantTable.num_angle_quantization : Int))⟩ :=
  ⟨by decide, by decide,
    (mirrored_lookup_agrees_above_heading_bin_zero quadrantTable (flt 5) 0 1 1
      (by decide) (by decide) (by decide)).1⟩

/-- A run over the one projection to `(6, 5, 0)` with the visited node at
address 56: the node is unchanged and is not in the output. -/
theorem getNeighborsOver_keeps_visited_witness :
    ∃ s1, getNeighborsOver exactArith scenarioTable scenarioIndex poolGetter freeChecker true
        [stepEast] (startOf visitedMemory) = some s1 ∧
      s1.memory 56 = some closedNode ∧ s1.neighbors.count 56 = 0 :=
  ⟨_, rfl,
    getNeighborsOver_keeps_visited exactArith scenarioTable scenarioIndex poolGetter
      freeChecker true 56 closedNode (fun _ _ _ _ => rfl) rfl [stepEast]
      (startOf visitedMemory) _ rfl rfl⟩

/-- C9 fails on the code: `getTraversalCost` returns `0.0` for every node and
child, and `0.0` is not greater than zero. -/
theorem getTraversalCost_is_zero :
    (∀ (F : Type) (A : FloatArith F) (n child : NodeLattice F),
      NodeLattice.getTraversalCost A n child = A.zero) ∧
    NodeLattice.getTraversalCost exactArith usedNode (NodeLattice.new exactArith 56 0) = flt 0 ∧
    exactArith.lt exactArith.zero
      (NodeLattice.getTraversalCost exactArith usedNode (NodeLattice.new exactArith 56 0)) =
      false := by
  refine ⟨fun _ _ _ _ => rfl, by decide, by decide⟩

/-- C10: `NodeLattice::initMotionModel` throws exactly when the motion model
is not `STATE_LATTICE`; when it throws the shared motion table is unchanged,
and otherwise the table is the result of `LatticeMotionTable::initMotionModel`
with the given grid width and search info. -/
theorem initMotionModel_throws_iff_not_state_lattice {M F : Type} [DecidableEq M]
    (STATE_LATTICE motion_model : M) (size_x size_y num_angle_quantization : Nat)
    (search_info : SearchInfo) (motion_table : LatticeMotionTable F) :
    let r := NodeLattice.initMotionModel STATE_LATTICE motion_model size_x size_y
      num_angle_quantization search_info motion_table
    ((∃ e, r.1 = .error e) ↔ motion_model ≠ STATE_LATTICE) ∧
    (r.1 = .ok () ↔ motion_model = STATE_LATTICE) ∧
    r.2 = (if motion_model = STATE_LATTICE then
      motion_table.initMotionModel size_x search_info else motion_table) := by
  intro r
  by_cases h : motion_model = STATE_LATTICE
  · have hr : r = (.ok (), motion_table.initMotionModel size_x search_info) := by
      simp [r, NodeLattice.initMotionModel, h]
    rw [hr]
    simp [h]
  · have hr : r = (.error ("Invalid motion model for Lattice node. Please select" ++
        " STATE_LATTICE and provide a valid lattice file."), motion_table) := by
      simp [r, NodeLattice.initMotionModel, h]
    rw [hr]
    simp [h]

/-- C10 at concrete requests on the table built from `"lattice.json"`: the
model `DUBIN` is refused and the table kept; `STATE_LATTICE` with the library
`"other.json"` and grid width 20 succeeds and the table holds both. -/
theorem initMotionModel_throws_iff_not_state_lattice_witness :
    (NodeLattice.initMotionModel MotionModel.STATE_LATTICE MotionModel.DUBIN 20 20 4
      ⟨"other.json"⟩ scenarioTable).2 = scenarioTable ∧
    (NodeLattice.initMotionModel MotionModel.STATE_LATTICE MotionModel.DUBIN 20 20 4
      ⟨"other.json"⟩ scenarioTable).1.toBool = false ∧
    (NodeLattice.initMotionModel MotionModel.STATE_LATTICE MotionModel.STATE_LATTICE 20 20 4
      ⟨"other.json"⟩ scenarioTable).1.toBool = true ∧
    (NodeLattice.initMotionModel MotionModel.STATE_LATTICE MotionModel.STATE_LATTICE 20 20 4
      ⟨"other.json"⟩ scenarioTable).2 =
      { scenarioTable with size_x := 20, current_lattice_filepath := "other.json" } :=
  ⟨(initMotionModel_throws_iff_not_state_lattice MotionModel.STATE_LATTICE MotionModel.DUBIN
      20 20 4 ⟨"other.json"⟩ scenarioTable).2.2,
    by decide, by decide, by decide⟩

end nav2_smac_planner
